import Mathlib

/-!
Verification of the test-observability and aggregation core of the Kolosal
server test suite: the sanitizer and structured logger (`logging_utils.py`),
the request tracker, the concurrent fan-out pattern
(`tests/retrieval_tests/document_retrieval_test.py`,
`tests/engine_tests/completion_test.py`) and the result
collector / reporter (`main.py`).
-/

/-! ## JSON-like data (payloads handled by `EndpointLogger._sanitize_data`) -/

mutual

/-- A JSON-like Python value: dict, list, string, or other scalar. -/
inductive JsonVal : Type where
  | str (s : String)
  | num (n : Int)
  | bool (b : Bool)
  | null
  | arr (items : JsonArr)
  | obj (fields : JsonObj)

/-- A Python list of JSON-like values. -/
inductive JsonArr : Type where
  | nil
  | cons (hd : JsonVal) (tl : JsonArr)

/-- A Python dict: ordered key/value entries. -/
inductive JsonObj : Type where
  | nil
  | cons (key : String) (val : JsonVal) (tl : JsonObj)

end

deriving instance DecidableEq for JsonVal, JsonArr, JsonObj

/-- Length of a modelled list. -/
def JsonArr.length : JsonArr → Nat
  | .nil => 0
  | .cons _ tl => 1 + tl.length

/-- Element of a modelled list at position `i`. -/
def JsonArr.get? : JsonArr → Nat → Option JsonVal
  | .nil, _ => none
  | .cons hd _, 0 => some hd
  | .cons _ tl, i + 1 => tl.get? i

/-- Entry of a modelled dict at position `i`. -/
def JsonObj.entryAt : JsonObj → Nat → Option (String × JsonVal)
  | .nil, _ => none
  | .cons k v _, 0 => some (k, v)
  | .cons _ _ tl, i + 1 => tl.entryAt i

/-! ## Sanitizer (`EndpointLogger._sanitize_data`, `logging_utils.py` 250-269) -/

/-- The sensitive-key list of `_sanitize_data` (line 256). -/
def sensitiveKeys : List String := ["password", "api_key", "token", "secret", "auth"]

/-- Python slicing `s[:n]` on strings: the first `n` characters. -/
def strTake (s : String) (n : Nat) : String := String.mk (s.data.take n)

/-- Python `str.lower()`: each character lowercased. -/
def strLower (s : String) : String := String.mk (s.data.map Char.toLower)

/-- Python `str.upper()`. -/
def strUpper (s : String) : String := String.mk (s.data.map Char.toUpper)

/-- The long-string replacement of `_sanitize_data` (line 262):
`value[:100] + f"... [truncated {len(value)} chars]"`. -/
def truncateStr (s : String) : String :=
  strTake s 100 ++ "... [truncated " ++ Nat.repr s.length ++ " chars]"

mutual

/-- `EndpointLogger._sanitize_data` (`logging_utils.py` 250-269): dicts are
sanitized entry-wise (key-aware), lists element-wise, everything else is
returned unchanged. -/
def sanitize_data : JsonVal → JsonVal
  | .arr items => .arr (sanitizeItems items)
  | .obj fields => .obj (sanitizeFields fields)
  | v => v
termination_by structural v => v

/-- The dict branch of `_sanitize_data` (lines 252-265). -/
def sanitizeFields : JsonObj → JsonObj
  | .nil => .nil
  | .cons k v tl => .cons k (sanitizeEntry k v) (sanitizeFields tl)
termination_by structural o => o

/-- One dict entry of `_sanitize_data`: a sensitive key hides the value
(line 256-257); dict/list values recurse (258-259); string values longer
than 1000 characters are truncated (260-262); everything else is kept
(263-264). -/
def sanitizeEntry (k : String) (v : JsonVal) : JsonVal :=
  if strLower k ∈ sensitiveKeys then .str "[HIDDEN]"
  else
    match v with
    | .arr items => .arr (sanitizeItems items)
    | .obj fields => .obj (sanitizeFields fields)
    | .str s => if 1000 < s.length then .str (truncateStr s) else .str s
    | v => v
termination_by structural v

/-- The list branch of `_sanitize_data` (lines 266-267). -/
def sanitizeItems : JsonArr → JsonArr
  | .nil => .nil
  | .cons v tl => .cons (sanitize_data v) (sanitizeItems tl)
termination_by structural a => a

end

/-- A 1500-character string. -/
def longStr : String := String.mk (List.replicate 1500 'a')

/-- Python strings have at most `sys.maxsize < 2^63` characters; the
sanitizer model uses unbounded `String`s, so the bound is recorded as a
side condition. -/
def strLenBound : Nat := 2 ^ 63

mutual

/-- Every string in the value has a length representable in the running
program (below `strLenBound`). -/
def boundedVal : JsonVal → Bool
  | .str s => s.length < strLenBound
  | .arr items => boundedArr items
  | .obj fields => boundedObj fields
  | _ => true
termination_by structural v => v

/-- `boundedVal`, list form. -/
def boundedArr : JsonArr → Bool
  | .nil => true
  | .cons v tl => boundedVal v && boundedArr tl
termination_by structural a => a

/-- `boundedVal`, dict form. -/
def boundedObj : JsonObj → Bool
  | .nil => true
  | .cons _ v tl => boundedVal v && boundedObj tl
termination_by structural o => o

end

/-! ## Structured logger (`EndpointLogger.log_endpoint_test`, 117-191) and
request tracker (`RequestTracker`, 340-398) -/

/-- The parts of a `requests.Response` consumed by the logger: status
code, the JSON-parsed body when parseable, and the raw text used for the
`raw_content` fallback. -/
structure RespModel where
  status_code : Nat
  jsonBody : Option JsonVal
  rawText : String

deriving DecidableEq

/-- The log-entry dict built by `log_endpoint_test` (lines 145-185).
Optional keys are `Option`: the source adds `request` when request data
is given, `response` when a response object is given (with `data` inside
it when parsed data is also given), and `error` when the error string is
truthy. The `timestamp` and `performance` keys depend on the wall clock,
and the header map and byte sizes inside `request`/`response` carry no
claim-relevant content; they are not modelled. -/
structure LogEntry where
  test_name : String
  endpoint : String
  method : String
  success : Bool
  request : Option JsonVal
  response : Option (Nat × Option JsonVal)
  error : Option String
  metadata : Option JsonObj

deriving DecidableEq

/-- `EndpointLogger.log_endpoint_test` (`logging_utils.py` 117-191),
restricted to the log-entry construction (lines 145-185): `success` is
`error is None and (response is None or response.status_code < 400)`
(line 150); payloads are sanitized; the `error` key is added only when
`error` is truthy (line 180), and `metadata` only when truthy (line 184). -/
def log_endpoint_test (test_name endpoint method : String)
    (request_data : Option JsonVal) (response : Option RespModel)
    (response_data : Option JsonVal) (error : Option String)
    (metadata : Option JsonObj) : LogEntry where
  test_name := test_name
  endpoint := endpoint
  method := strUpper method
  success := error.isNone &&
    (match response with
     | none => true
     | some r => r.status_code < 400)
  request := request_data.map sanitize_data
  response := response.map fun r => (r.status_code, response_data.map sanitize_data)
  error :=
    match error with
    | some s => if s = "" then none else some s
    | none => none
  metadata :=
    match metadata with
    | some .nil => none
    | md => md

/-- The mutable state of a `RequestTracker` (lines 343-358): construction
arguments plus the `response`/`error` slots set by `set_response` /
`set_error`. -/
structure Tracker where
  test_name : String
  endpoint : String
  method : String
  request_data : Option JsonVal
  metadata : Option JsonObj
  response : Option RespModel
  error : Option String

deriving DecidableEq

/-- `RequestTracker.__init__` (343-358): both slots start unset. -/
def RequestTracker.new (test_name endpoint method : String)
    (request_data : Option JsonVal) (metadata : Option JsonObj) : Tracker :=
  ⟨test_name, endpoint, method, request_data, metadata, none, none⟩

/-- `RequestTracker.set_response` (392-394). -/
def set_response (t : Tracker) (r : RespModel) : Tracker := { t with response := some r }

/-- `RequestTracker.set_error` (396-398). -/
def set_error (t : Tracker) (e : String) : Tracker := { t with error := some e }

/-- The error string `__exit__` hands to the logger (lines 367-369): the
exception text when the scope raised, else whatever `set_error` stored. -/
def trackerRecordedError (t : Tracker) (exc : Option String) : Option String :=
  match exc with
  | some m => some m
  | none => t.error

/-- The parsed response data `__exit__` prepares (lines 371-377):
`response.json()`, falling back to `{"raw_content": response.text[:500]}`. -/
def trackerResponseData (t : Tracker) : Option JsonVal :=
  match t.response with
  | none => none
  | some r =>
    some (match r.jsonBody with
          | some j => j
          | none => .obj (.cons "raw_content" (.str (strTake r.rawText 500)) .nil))

/-- `RequestTracker.__exit__` (lines 364-390): the single
`log_endpoint_test` call made on scope exit. -/
def tracker_exit (t : Tracker) (exc : Option String) : LogEntry :=
  log_endpoint_test t.test_name t.endpoint t.method t.request_data t.response
    (trackerResponseData t) (trackerRecordedError t exc) t.metadata

/-- How a `with RequestTracker(...)` body ends: a normal return, or an
exception carrying its message, each with the tracker state at exit. -/
inductive BodyResult : Type where
  | normal (t : Tracker)
  | raised (t : Tracker) (msg : String)

deriving DecidableEq

/-- Python `with`-statement semantics for the tracker: `__exit__` runs
exactly once on every exit path; it returns `None` (falsy), so a raised
exception is re-raised unchanged after logging. The first component
collects the records emitted during the scope, the second the exception
that propagates to the caller. -/
def with_tracker (init : Tracker) (body : Tracker → BodyResult) :
    List LogEntry × Option String :=
  match body init with
  | .normal t => ([tracker_exit t none], none)
  | .raised t m => ([tracker_exit t (some m)], some m)

/-! ## Result collector (`TestSummary`, `main.py` 128-314) -/

/-- The `TestResult` dataclass (`main.py` 128-137). Durations are modelled
as exact rationals; `timestamp` is the creation wall-clock text, carried
opaquely. -/
structure TestResult where
  name : String
  category : String
  status : String
  duration : ℚ
  details : String
  error_message : String
  timestamp : String

deriving DecidableEq

/-- What a Python test function can do, as distinguished by
`run_test_manual`: return the boolean `False`, return the boolean `True`,
return any other value, raise `AssertionError`, or raise any other
exception (each exception with its text). -/
inductive TestFnBehavior : Type where
  | retFalse
  | retTrue
  | retOther
  | assertionError (msg : String)
  | otherError (msg : String)

deriving DecidableEq

/-- `TestSummary.run_test_manual` (`main.py` 195-243): the recorded
`TestResult` (via `add_result`) and the returned boolean, for each
behavior of the test function. `ts` is the creation timestamp text of
the result, `d` the measured duration. -/
def run_test_manual (test_name category : String) (d : ℚ) (ts : String)
    (b : TestFnBehavior) : TestResult × Bool :=
  match b with
  | .retFalse =>
      (⟨test_name, category, "FAIL", d, "Test function returned False", "", ts⟩, false)
  | .retTrue =>
      (⟨test_name, category, "PASS", d, "Test function returned True", "", ts⟩, true)
  | .retOther =>
      (⟨test_name, category, "PASS", d, "Test completed without exceptions", "", ts⟩, true)
  | .assertionError m =>
      (⟨test_name, category, "FAIL", d, "", "Assertion failed: " ++ m, ts⟩, false)
  | .otherError m =>
      (⟨test_name, category, "FAIL", d, "", m, ts⟩, false)

/-- The dict returned by `TestSummary.get_category_summary`
(`main.py` 250-265): five counters, plus the two duration keys that are
present only in the non-empty branch. -/
structure CategorySummary where
  total : Nat
  passed : Nat
  failed : Nat
  skipped : Nat
  warnings : Nat
  avg_duration : Option ℚ
  total_duration : Option ℚ

deriving DecidableEq

/-- `TestSummary.get_category_summary` (`main.py` 250-265). -/
def get_category_summary (results : List TestResult) (category : String) :
    CategorySummary :=
  let category_results := results.filter (fun r => r.category == category)
  if category_results.isEmpty then
    ⟨0, 0, 0, 0, 0, none, none⟩
  else
    ⟨category_results.length,
     (category_results.filter (fun r => r.status == "PASS")).length,
     (category_results.filter (fun r => r.status == "FAIL")).length,
     (category_results.filter (fun r => r.status == "SKIP")).length,
     (category_results.filter (fun r => r.status == "WARNING")).length,
     some ((category_results.map (fun r => r.duration)).sum / category_results.length),
     some ((category_results.map (fun r => r.duration)).sum)⟩

/-! ## Reporter recommendations (`TestSummary.get_recommendations`,
`main.py` 275-314) -/

/-- Message of `main.py` line 281. -/
def serverDownMsg : String :=
  "🔧 Server is not responding. Check if Kolosal Server is running on 127.0.0.1:8080"

/-- Message of `main.py` line 283. -/
def serverUnclearMsg : String :=
  "⚠️ Server status unclear. Consider implementing health check endpoints"

/-- Message of `main.py` line 289, parameterized by the slow-test count. -/
def slowTestsMsg (n : Nat) : String :=
  "⏱️ " ++ Nat.repr n ++ " tests are running slowly (>30s). Consider optimization"

/-- Message of `main.py` line 296. -/
def engineFailMsg : String :=
  "🤖 Engine test failures detected. Check model availability and server configuration"

/-- Message of `main.py` line 298. -/
def docFailMsg : String :=
  "📄 Document processing issues. Verify test files exist and are accessible"

/-- Message of `main.py` line 300. -/
def agentFailMsg : String :=
  "🤖 Agent system failures. Check API compatibility and authentication"

/-- The `<50%` tier message (`main.py` line 308). -/
def lowTierMsg : String :=
  "🚨 Low success rate (<50%). Review server setup and test configuration"

/-- The `<80%` tier message (`main.py` line 310). -/
def midTierMsg : String :=
  "⚠️ Moderate success rate (<80%). Some components may need attention"

/-- The `≥95%` tier message (`main.py` line 312). -/
def highTierMsg : String :=
  "🎉 Excellent success rate! System appears to be functioning well"

/-- Server-connectivity recommendations (`main.py` 279-283). -/
def server_recommendations (server_status : Option Bool)
    (server_info : List (String × String)) : List String :=
  if server_status = some false then [serverDownMsg]
  else if server_info.isEmpty then [serverUnclearMsg]
  else []

/-- Performance recommendations (`main.py` 285-289): tests slower than 30s. -/
def slow_recommendations (results : List TestResult) : List String :=
  if results.isEmpty then []
  else if (results.filter (fun r => (30 : ℚ) < r.duration)).isEmpty then []
  else [slowTestsMsg (results.filter (fun r => (30 : ℚ) < r.duration)).length]

/-- Failure-pattern recommendations (`main.py` 291-300). -/
def failure_recommendations (results : List TestResult) : List String :=
  if (results.filter (fun r => r.status == "FAIL")).isEmpty then []
  else
    (if (results.filter (fun r => r.status == "FAIL")).any
        (fun r => r.category == "Engine Tests") then [engineFailMsg] else []) ++
    (if (results.filter (fun r => r.status == "FAIL")).any
        (fun r => r.category == "Document Processing") then [docFailMsg] else []) ++
    (if (results.filter (fun r => r.status == "FAIL")).any
        (fun r => r.category == "Agent System") then [agentFailMsg] else [])

/-- The aggregate pass rate (`main.py` 303-305), in percent; `0` for an
empty run. -/
def success_rate (results : List TestResult) : ℚ :=
  if 0 < results.length then
    ((results.filter (fun r => r.status == "PASS")).length : ℚ) / results.length * 100
  else 0

/-- Success-rate tier recommendations (`main.py` 307-312). -/
def tier_recommendations (results : List TestResult) : List String :=
  if success_rate results < 50 then [lowTierMsg]
  else if success_rate results < 80 then [midTierMsg]
  else if 95 ≤ success_rate results then [highTierMsg]
  else []

/-- `TestSummary.get_recommendations` (`main.py` 275-314): the four groups
appended in source order. -/
def get_recommendations (server_status : Option Bool)
    (server_info : List (String × String)) (results : List TestResult) :
    List String :=
  server_recommendations server_status server_info ++
    slow_recommendations results ++
    failure_recommendations results ++
    tier_recommendations results

/-- A run with nine PASS and one FAIL outcomes: 90% pass rate. -/
def resultsNinety : List TestResult :=
  [⟨"t1", "Cat", "PASS", 1, "", "", ""⟩, ⟨"t2", "Cat", "PASS", 1, "", "", ""⟩,
   ⟨"t3", "Cat", "PASS", 1, "", "", ""⟩, ⟨"t4", "Cat", "PASS", 1, "", "", ""⟩,
   ⟨"t5", "Cat", "PASS", 1, "", "", ""⟩, ⟨"t6", "Cat", "PASS", 1, "", "", ""⟩,
   ⟨"t7", "Cat", "PASS", 1, "", "", ""⟩, ⟨"t8", "Cat", "PASS", 1, "", "", ""⟩,
   ⟨"t9", "Cat", "PASS", 1, "", "", ""⟩, ⟨"t10", "Cat", "FAIL", 1, "", "", ""⟩]

/-- A run with three PASS and seven FAIL outcomes: 30% pass rate. -/
def resultsThirty : List TestResult :=
  [⟨"t1", "Cat", "PASS", 1, "", "", ""⟩, ⟨"t2", "Cat", "PASS", 1, "", "", ""⟩,
   ⟨"t3", "Cat", "PASS", 1, "", "", ""⟩, ⟨"t4", "Cat", "FAIL", 1, "", "", ""⟩,
   ⟨"t5", "Cat", "FAIL", 1, "", "", ""⟩, ⟨"t6", "Cat", "FAIL", 1, "", "", ""⟩,
   ⟨"t7", "Cat", "FAIL", 1, "", "", ""⟩, ⟨"t8", "Cat", "FAIL", 1, "", "", ""⟩,
   ⟨"t9", "Cat", "FAIL", 1, "", "", ""⟩, ⟨"t10", "Cat", "FAIL", 1, "", "", ""⟩]

/-! ## Detailed report (`TestSummary.print_detailed_summary`,
`main.py` 316-409) -/

/-- Numeric rendering for report text. The source formats with
`:.1f`/`:.2f`; the model renders the exact rational - the claims below do
not depend on the digit format, only on what the numbers depend on. -/
def fmtQ (q : ℚ) : String := toString q

/-- The `"=" * 80` separator. -/
def sep80 : String := String.mk (List.replicate 80 '=')

/-- The status-emoji map of `main.py` line 366, default `❓`. -/
def statusEmoji (status : String) : String :=
  if status == "PASS" then "✅"
  else if status == "FAIL" then "❌"
  else if status == "SKIP" then "⏭️"
  else if status == "WARNING" then "⚠️"
  else "❓"

/-- Count of outcomes with a given status. -/
def countStatus (results : List TestResult) (st : String) : Nat :=
  (results.filter (fun r => r.status == st)).length

/-- The server-status block (`main.py` 325-334). -/
def serverStatusLines (sv : Option Bool) (si : List (String × String)) :
    List String :=
  match sv with
  | some true =>
      "   ✅ Server is responding" ::
        si.map (fun p => "   • " ++ p.1 ++ ": " ++ p.2)
  | some false => ["   ❌ Server is not responding"]
  | none => ["   ❓ Server status unknown"]

/-- A counter line with percentage (`main.py` 345-348): `0` without
percentage on an empty run. -/
def pctLine (label : String) (count total : Nat) : String :=
  if 0 < total then
    "   • " ++ label ++ ": " ++ Nat.repr count ++ " (" ++
      fmtQ ((count : ℚ) / total * 100) ++ "%)"
  else "   • " ++ label ++ ": 0"

/-- `sorted(set(r.category for r in results))` (`main.py` 353, 356). -/
def categoriesSorted (results : List TestResult) : List String :=
  List.insertionSort (fun a b => a ≤ b) (results.map (fun r => r.category)).dedup

/-- The per-category block (`main.py` 358-369). The duration keys are
read from `get_category_summary`, which always yields them here because
the category comes from a recorded outcome. -/
def categoryLines (results : List TestResult) (category : String) :
    List String :=
  ["\n   " ++ strUpper category ++ ":",
   "     • Tests: " ++ Nat.repr (get_category_summary results category).total,
   "     • Passed: " ++ Nat.repr (get_category_summary results category).passed ++
     " | Failed: " ++ Nat.repr (get_category_summary results category).failed ++
     " | Skipped: " ++ Nat.repr (get_category_summary results category).skipped ++
     " | Warnings: " ++ Nat.repr (get_category_summary results category).warnings,
   "     • Duration: " ++
     fmtQ ((get_category_summary results category).total_duration.getD 0) ++
     "s (avg: " ++
     fmtQ ((get_category_summary results category).avg_duration.getD 0) ++ "s)"] ++
  (results.filter (fun r => r.category == category)).flatMap (fun r =>
    ("       " ++ statusEmoji r.status ++ " " ++ r.name ++ " (" ++
        fmtQ r.duration ++ "s)") ::
      (if r.error_message == "" then []
       else ["         └─ Error: " ++ strTake r.error_message 100 ++ "..."]))

/-- The category-breakdown section (`main.py` 352-369). -/
def categoryBreakdown (results : List TestResult) : List String :=
  if (categoriesSorted results).isEmpty then []
  else "\n📋 CATEGORY BREAKDOWN:" ::
    (categoriesSorted results).flatMap (categoryLines results)

/-- The failed-tests section (`main.py` 371-381). -/
def failedDetail (results : List TestResult) : List String :=
  if (results.filter (fun r => r.status == "FAIL")).isEmpty then []
  else "\n❌ FAILED TESTS DETAIL:" ::
    (results.filter (fun r => r.status == "FAIL")).enum.flatMap (fun p =>
      ("\n   " ++ Nat.repr (p.1 + 1) ++ ". " ++ p.2.name ++ " (" ++
          p.2.category ++ ")") ::
        ("      Time: " ++ p.2.timestamp ++ " | Duration: " ++
          fmtQ p.2.duration ++ "s") ::
        ((if p.2.error_message == "" then []
          else ["      Error: " ++ p.2.error_message]) ++
         (if p.2.details == "" then []
          else ["      Details: " ++ p.2.details])))

/-- The slowest-tests section (`main.py` 383-388): outcomes sorted by
descending duration, first five. -/
def slowestLines (results : List TestResult) : List String :=
  if results.isEmpty then []
  else "\n⏱️  SLOWEST TESTS:" ::
    ((List.insertionSort (fun a b => b.duration ≤ a.duration) results).take 5).enum.map
      (fun p => "   " ++ Nat.repr (p.1 + 1) ++ ". " ++ p.2.name ++ ": " ++
        fmtQ p.2.duration ++ "s (" ++ p.2.category ++ ")")

/-- The final-result section (`main.py` 390-400). -/
def finalLines (results : List TestResult) : List String :=
  "\n🎯 FINAL RESULT:" ::
  (if countStatus results "FAIL" = 0 ∧ 0 < results.length then
      ["   🎉 ALL TESTS PASSED!"]
    else if 0 < countStatus results "FAIL" then
      ["   ⚠️  " ++ Nat.repr (countStatus results "FAIL") ++ " TEST(S) FAILED"]
    else ["   ❓ NO TESTS WERE RUN"]) ++
  ["   📊 Success Rate: " ++ fmtQ (success_rate results) ++ "%"]

/-- The recommendations section (`main.py` 402-407). -/
def recommendationLines (sv : Option Bool) (si : List (String × String))
    (results : List TestResult) : List String :=
  if (get_recommendations sv si results).isEmpty then []
  else "\n💡 RECOMMENDATIONS:" ::
    (get_recommendations sv si results).enum.map
      (fun p => "   " ++ Nat.repr (p.1 + 1) ++ ". " ++ p.2)

/-- Lines printed before the Total Duration line (`main.py` 320-348). -/
def detailed_summary_pre (sv : Option Bool) (si : List (String × String))
    (results : List TestResult) : List String :=
  ["\n" ++ sep80, "📊 COMPREHENSIVE TEST SUMMARY", sep80,
   "\n🖥️  SERVER STATUS:"] ++
  serverStatusLines sv si ++
  ["\n📈 OVERALL STATISTICS:",
   "   • Total Tests: " ++ Nat.repr results.length,
   pctLine "Passed" (countStatus results "PASS") results.length,
   pctLine "Failed" (countStatus results "FAIL") results.length,
   pctLine "Skipped" (countStatus results "SKIP") results.length,
   pctLine "Warnings" (countStatus results "WARNING") results.length]

/-- The one wall-clock-dependent line (`main.py` 318 and 349):
`total_duration = time.time() - self.start_time`. -/
def totalDurationLine (d : ℚ) : String := "   • Total Duration: " ++ fmtQ d ++ "s"

/-- Lines printed after the Total Duration line (`main.py` 350-409). -/
def detailed_summary_post (sv : Option Bool) (si : List (String × String))
    (results : List TestResult) : List String :=
  (if 0 < results.length then
      "   • Average Test Duration: " ++
        fmtQ ((results.map (fun r => r.duration)).sum / results.length) ++ "s"
    else "   • Average Test Duration: 0s") ::
  (categoryBreakdown results ++ failedDetail results ++ slowestLines results ++
    finalLines results ++ recommendationLines sv si results ++ [sep80])

/-- `TestSummary.print_detailed_summary` (`main.py` 316-409) as the list
of lines it prints, given the wall-clock time `now` at the call and the
run start time. -/
def print_detailed_summary (now start : ℚ) (sv : Option Bool)
    (si : List (String × String)) (results : List TestResult) : List String :=
  detailed_summary_pre sv si results ++
    totalDurationLine (now - start) :: detailed_summary_post sv si results

/-! ## Concurrent fan-out (`concurrent_retrieve_documents`,
`document_retrieval_test.py` 103-241; the same pattern is
`concurrent_completion`, `completion_test.py` 283-403) -/

/-- What `/vector-search` answers one request with: HTTP status, the
`documents` list of the parsed body, and the elapsed time the client
measures. -/
structure VectorSearchReply where
  status : Nat
  documents : List String
  elapsed : ℚ

deriving DecidableEq

/-- One tuple returned by `single_request`
(`document_retrieval_test.py` 138-164). -/
structure RetrievalRow where
  request_id : Nat
  elapsed : ℚ
  document_count : Nat
  query : String
  documents : List String

deriving DecidableEq

/-- `single_request` (`document_retrieval_test.py` 138-164): raises
`aiohttp.ClientResponseError` on a non-200 status (modelled as `.error`
with the message of line 157), otherwise returns the row tuple. -/
def single_request (query : String) (request_id : Nat)
    (reply : VectorSearchReply) : Except String RetrievalRow :=
  if reply.status ≠ 200 then
    .error ("Failed to retrieve documents for query: " ++ query)
  else
    .ok ⟨request_id, reply.elapsed, reply.documents.length, query,
      reply.documents⟩

/-- The per-index calls of `run_concurrent_requests` (line 168):
`single_request(query, i+1)` for each enumerated query, paired with the
reply the server gives that index. -/
def batch_calls (queries : List String) (replies : List VectorSearchReply) :
    List (Except String RetrievalRow) :=
  ((queries.zip replies).enum).map
    (fun p => single_request p.2.1 (p.1 + 1) p.2.2)

/-- `asyncio.gather(*(...))` with the default `return_exceptions=False`:
if every awaitable succeeds their results are collected, otherwise the
exception of a failing awaitable propagates to the awaiter and no
partial result list is produced. -/
def gatherResults : List (Except String RetrievalRow) →
    Except String (List RetrievalRow)
  | [] => .ok []
  | .error e :: _ => .error e
  | .ok r :: rest => (gatherResults rest).map (fun rs => r :: rs)

/-- The `results.sort(key=lambda x: x[0])` step
(`document_retrieval_test.py` 176 and `completion_test.py` 339). -/
def sort_by_request_id (rows : List RetrievalRow) : List RetrievalRow :=
  List.insertionSort (fun a b => a.request_id ≤ b.request_id) rows

/-- `concurrent_retrieve_documents` (`document_retrieval_test.py`
103-241): gathers all per-index calls; on success it sorts the rows by
request id, counts the requests whose `documents` list is non-empty and
returns `success_rate >= 0.8` together with the per-element rows of the
printed summary; any exception reaches the outer `except` (line 234),
which logs only the error string and returns `False` - no per-element
rows are reported. -/
def concurrent_retrieve_documents (queries : List String)
    (replies : List VectorSearchReply) : Bool × Option (List RetrievalRow) :=
  match gatherResults (batch_calls queries replies) with
  | .error _ => (false, none)
  | .ok rows =>
    let sorted := sort_by_request_id rows
    let successful :=
      (sorted.filter (fun r => !r.documents.isEmpty)).length
    ((0.8 : ℚ) ≤ (successful : ℚ) / queries.length, some sorted)

instance : IsTotal RetrievalRow (fun a b => a.request_id ≤ b.request_id) :=
  ⟨fun a b => Nat.le_total a.request_id b.request_id⟩

instance : IsTrans RetrievalRow (fun a b => a.request_id ≤ b.request_id) :=
  ⟨fun _ _ _ h1 h2 => Nat.le_trans h1 h2⟩

/-! ## Claim C4: sanitizer rules -/

theorem longStr_length : longStr.length = 1500 := by
  have : longStr.data = List.replicate 1500 'a' := rfl
  rw [String.length, this, List.length_replicate]

/-- C4 counterexample: a 1500-character string that is an element of a
sequence passes through `_sanitize_data` unchanged (the string branch of
lines 260-262 is only reachable for dict values; the list branch maps
`_sanitize_data` over elements, and a bare string falls into the
identity case), contradicting the claim that scalar strings longer than
1000 characters nested inside sequences are truncated. -/
theorem c4_counterexample :
    1000 < longStr.length ∧
    sanitize_data (.arr (.cons (.str longStr) .nil)) = .arr (.cons (.str longStr) .nil) := by
  constructor
  · rw [longStr_length]; norm_num
  · simp [sanitize_data, sanitizeItems]

theorem sanitizeItems_length : ∀ items : JsonArr,
    (sanitizeItems items).length = items.length
  | .nil => rfl
  | .cons hd tl => by simp [sanitizeItems, JsonArr.length, sanitizeItems_length tl]
termination_by structural items => items

theorem sanitizeItems_get : ∀ (items : JsonArr) (i : Nat),
    (sanitizeItems items).get? i = (items.get? i).map sanitize_data
  | .nil, _ => by simp [sanitizeItems, JsonArr.get?]
  | .cons hd tl, 0 => by simp [sanitizeItems, JsonArr.get?]
  | .cons hd tl, i + 1 => by
      simpa [sanitizeItems, JsonArr.get?] using sanitizeItems_get tl i
termination_by structural items => items

theorem sanitizeFields_entryAt : ∀ (fields : JsonObj) (i : Nat),
    (sanitizeFields fields).entryAt i =
      (fields.entryAt i).map (fun p => (p.1, sanitizeEntry p.1 p.2))
  | .nil, _ => by simp [sanitizeFields, JsonObj.entryAt]
  | .cons k v tl, 0 => by simp [sanitizeFields, JsonObj.entryAt]
  | .cons k v tl, i + 1 => by
      simpa [sanitizeFields, JsonObj.entryAt] using sanitizeFields_entryAt tl i
termination_by structural fields => fields

/-- C4 (amended): `_sanitize_data` redacts map values under sensitive keys
(case-insensitively, regardless of the value type), truncates over-1000
character strings only when they occur as map values under non-sensitive
keys (map values of at most 1000 characters pass through), sanitizes
sequences element-wise preserving order and length, and leaves top-level
and sequence-element scalars - including arbitrarily long strings - and
all non-string non-collection scalars unchanged. -/
theorem c4_sanitizer_rules :
    (∀ k v, strLower k ∈ sensitiveKeys → sanitizeEntry k v = .str "[HIDDEN]") ∧
    (∀ k s, strLower k ∉ sensitiveKeys → 1000 < s.length →
        sanitizeEntry k (.str s) = .str (truncateStr s)) ∧
    (∀ k s, strLower k ∉ sensitiveKeys → s.length ≤ 1000 →
        sanitizeEntry k (.str s) = .str s) ∧
    (∀ items, sanitize_data (.arr items) = .arr (sanitizeItems items)) ∧
    (∀ items, (sanitizeItems items).length = items.length) ∧
    (∀ items i, (sanitizeItems items).get? i = (items.get? i).map sanitize_data) ∧
    (∀ fields, sanitize_data (.obj fields) = .obj (sanitizeFields fields)) ∧
    (∀ fields i, (sanitizeFields fields).entryAt i =
        (fields.entryAt i).map (fun p => (p.1, sanitizeEntry p.1 p.2))) ∧
    (∀ s, sanitize_data (.str s) = .str s) ∧
    (∀ n, sanitize_data (.num n) = .num n) ∧
    (∀ b, sanitize_data (.bool b) = .bool b) ∧
    sanitize_data .null = .null := by
  refine ⟨?_, ?_, ?_, ?_, sanitizeItems_length, sanitizeItems_get, ?_,
    sanitizeFields_entryAt, ?_, ?_, ?_, ?_⟩
  · intro k v hk; simp [sanitizeEntry.eq_def, hk]
  · intro k s hk hs; simp [sanitizeEntry.eq_def, hk, hs]
  · intro k s hk hs; simp [sanitizeEntry.eq_def, hk, Nat.not_lt.mpr hs]
  · intro items; simp [sanitize_data]
  · intro fields; simp [sanitize_data]
  · intro s; simp [sanitize_data]
  · intro n; simp [sanitize_data]
  · intro b; simp [sanitize_data]
  · simp [sanitize_data]

/-- Witness for C4: the amended rules applied at concrete inputs. -/
theorem c4_sanitizer_rules_witness :
    sanitizeEntry "API_Key" (.str "secret123") = .str "[HIDDEN]" ∧
    sanitizeEntry "note" (.str longStr) = .str (truncateStr longStr) ∧
    sanitizeEntry "note" (.str "ok") = .str "ok" := by
  refine ⟨c4_sanitizer_rules.1 "API_Key" _ (by decide),
    c4_sanitizer_rules.2.1 "note" longStr (by decide) ?_,
    c4_sanitizer_rules.2.2.1 "note" "ok" (by decide) (by decide)⟩
  rw [longStr_length]; norm_num

/-! ## Claim C7: sanitizer idempotence -/

theorem strTake_length_le (s : String) (n : Nat) : (strTake s n).length ≤ n := by
  have : (strTake s n).length = (s.data.take n).length := rfl
  rw [this, List.length_take]
  exact min_le_left _ _

theorem truncateStr_length_le (s : String) (hb : s.length < strLenBound) :
    (truncateStr s).length ≤ 1000 := by
  have hrepr : (Nat.repr s.length).length ≤ 19 := by
    refine Nat.repr_length _ 19 (by norm_num) (lt_of_lt_of_le hb ?_)
    norm_num [strLenBound]
  have h1 : (truncateStr s).length =
      (strTake s 100).length + 15 + (Nat.repr s.length).length + 7 := by
    have e1 : ("... [truncated " : String).length = 15 := rfl
    have e2 : (" chars]" : String).length = 7 := rfl
    simp [truncateStr, String.length_append, e1, e2]
  have h2 := strTake_length_le s 100
  omega

mutual

theorem sanitizeIdemVal : ∀ v : JsonVal, boundedVal v = true →
    sanitize_data (sanitize_data v) = sanitize_data v
  | .str _, _ => by simp [sanitize_data]
  | .num _, _ => by simp [sanitize_data]
  | .bool _, _ => by simp [sanitize_data]
  | .null, _ => by simp [sanitize_data]
  | .arr items, h => by
      have hi : boundedArr items = true := by simpa [boundedArr] using h
      simp [sanitize_data, sanitizeIdemArr items hi]
  | .obj fields, h => by
      have hf : boundedObj fields = true := by simpa [boundedObj] using h
      simp [sanitize_data, sanitizeIdemObj fields hf]
termination_by structural v => v

theorem sanitizeIdemEntry : ∀ (k : String) (v : JsonVal), boundedVal v = true →
    sanitizeEntry k (sanitizeEntry k v) = sanitizeEntry k v
  | k, .str s, h => by
      by_cases hk : strLower k ∈ sensitiveKeys
      · simp [sanitizeEntry.eq_def, hk]
      · by_cases hs : 1000 < s.length
        · have htr : ¬ 1000 < (truncateStr s).length := by
            have hb : s.length < strLenBound := by
              simpa [boundedVal, decide_eq_true_eq] using h
            exact Nat.not_lt.mpr (truncateStr_length_le s hb)
          simp [sanitizeEntry.eq_def, hk, hs, htr]
        · simp [sanitizeEntry.eq_def, hk, hs]
  | k, .num n, _ => by
      by_cases hk : strLower k ∈ sensitiveKeys <;> simp [sanitizeEntry.eq_def, hk]
  | k, .bool b, _ => by
      by_cases hk : strLower k ∈ sensitiveKeys <;> simp [sanitizeEntry.eq_def, hk]
  | k, .null, _ => by
      by_cases hk : strLower k ∈ sensitiveKeys <;> simp [sanitizeEntry.eq_def, hk]
  | k, .arr items, h => by
      have hi : boundedArr items = true := by simpa [boundedVal] using h
      by_cases hk : strLower k ∈ sensitiveKeys <;>
        simp [sanitizeEntry.eq_def, hk, sanitizeIdemArr items hi]
  | k, .obj fields, h => by
      have hf : boundedObj fields = true := by simpa [boundedVal] using h
      by_cases hk : strLower k ∈ sensitiveKeys <;>
        simp [sanitizeEntry.eq_def, hk, sanitizeIdemObj fields hf]
termination_by structural _ v => v

theorem sanitizeIdemArr : ∀ a : JsonArr, boundedArr a = true →
    sanitizeItems (sanitizeItems a) = sanitizeItems a
  | .nil, _ => by simp [sanitizeItems]
  | .cons v tl, h => by
      have hv : boundedVal v = true := by
        simp [boundedArr] at h; exact h.1
      have htl : boundedArr tl = true := by
        simp [boundedArr] at h; exact h.2
      simp [sanitizeItems, sanitizeIdemVal v hv, sanitizeIdemArr tl htl]
termination_by structural a => a

theorem sanitizeIdemObj : ∀ o : JsonObj, boundedObj o = true →
    sanitizeFields (sanitizeFields o) = sanitizeFields o
  | .nil, _ => by simp [sanitizeFields]
  | .cons k v tl, h => by
      have hv : boundedVal v = true := by
        simp [boundedObj] at h; exact h.1
      have htl : boundedObj tl = true := by
        simp [boundedObj] at h; exact h.2
      simp [sanitizeFields, sanitizeIdemEntry k v hv, sanitizeIdemObj tl htl]
termination_by structural o => o

end

/-- C7: `_sanitize_data` is idempotent on every JSON-like value whose
strings fit in the running program (Python caps string length at
`sys.maxsize < 2^63`; a truncated string then has at most
`100 + 22 + 19 ≤ 1000` characters, so a second pass leaves it alone). -/
theorem c7_sanitize_idempotent (v : JsonVal) (h : boundedVal v = true) :
    sanitize_data (sanitize_data v) = sanitize_data v :=
  sanitizeIdemVal v h

/-- Witness for C7 at a concrete nested value. -/
theorem c7_sanitize_idempotent_witness :
    boundedVal (.obj (.cons "Password" (.str "p") (.cons "k" (.str "v") .nil))) = true ∧
    sanitize_data (sanitize_data
        (.obj (.cons "Password" (.str "p") (.cons "k" (.str "v") .nil)))) =
      sanitize_data (.obj (.cons "Password" (.str "p") (.cons "k" (.str "v") .nil))) := by
  have hb : boundedVal (.obj (.cons "Password" (.str "p") (.cons "k" (.str "v") .nil))) = true := by
    simp [boundedVal, boundedObj, strLenBound]
    decide
  exact ⟨hb, c7_sanitize_idempotent _ hb⟩

/-! ## Claim C1: the derived `success` field -/

/-- C1: every record built by `log_endpoint_test` - including the one a
`RequestTracker` emits on scope exit - has
`success = (error is None) and (response is None or status < 400)`
(line 150), and a tracker scope that exits normally with neither
`set_response` nor `set_error` called yields `success = true`. -/
theorem c1_success_derivation :
    (∀ tn ep m rd resp rdata err md,
      (log_endpoint_test tn ep m rd resp rdata err md).success = true ↔
        err = none ∧ ∀ r, resp = some r → r.status_code < 400) ∧
    (∀ tn ep m rd md,
      (with_tracker (RequestTracker.new tn ep m rd md) (fun t => .normal t)).1.map
          (fun e => e.success) = [true]) := by
  constructor
  · intro tn ep m rd resp rdata err md
    simp only [log_endpoint_test, Bool.and_eq_true, Option.isNone_iff_eq_none]
    constructor
    · rintro ⟨he, hr⟩
      refine ⟨he, ?_⟩
      rintro r rfl
      simpa using hr
    · rintro ⟨he, hr⟩
      refine ⟨he, ?_⟩
      cases resp with
      | none => simp
      | some r => simpa using hr r rfl
  · intro tn ep m rd md
    simp [with_tracker, tracker_exit, RequestTracker.new, trackerRecordedError,
      trackerResponseData, log_endpoint_test]

/-- Witness for C1 at concrete arguments: an errorless 200 response. -/
theorem c1_success_derivation_witness :
    (log_endpoint_test "t" "/health" "GET" none
        (some ⟨200, none, "ok"⟩) none none none).success = true :=
  (c1_success_derivation.1 "t" "/health" "GET" none (some ⟨200, none, "ok"⟩)
      none none none).mpr ⟨rfl, by rintro r ⟨rfl⟩; decide⟩

/-! ## Claim C5: one emit per scope, exceptions recorded then re-raised -/

/-- C5: every `RequestTracker` scope emits exactly one record whichever
exit path is taken; when the body raises, the tracker records the
exception text as the error handed to the logger (line 369) and the
exception propagates unchanged to the caller; a normal exit propagates
nothing. -/
theorem c5_tracker_emit_once :
    ∀ (init : Tracker) (body : Tracker → BodyResult),
      (with_tracker init body).1.length = 1 ∧
      (∀ t m, body init = .raised t m →
        (with_tracker init body).2 = some m ∧
        (with_tracker init body).1 = [tracker_exit t (some m)] ∧
        trackerRecordedError t (some m) = some m) ∧
      (∀ t, body init = .normal t → (with_tracker init body).2 = none) := by
  intro init body
  refine ⟨?_, ?_, ?_⟩
  · cases h : body init <;> simp [with_tracker, h]
  · intro t m h
    simp [with_tracker, h, trackerRecordedError]
  · intro t h
    simp [with_tracker, h]

/-- Witness for C5: a concrete scope that raises. -/
theorem c5_tracker_emit_once_witness :
    (with_tracker (RequestTracker.new "t" "/x" "POST" none none)
        (fun t => .raised t "boom")).2 = some "boom" ∧
    (with_tracker (RequestTracker.new "t" "/x" "POST" none none)
        (fun t => .raised t "boom")).1.length = 1 :=
  ⟨((c5_tracker_emit_once (RequestTracker.new "t" "/x" "POST" none none)
      (fun t => .raised t "boom")).2.1 _ "boom" rfl).1,
   (c5_tracker_emit_once (RequestTracker.new "t" "/x" "POST" none none)
      (fun t => .raised t "boom")).1⟩

/-! ## Claim C2: the `run_test_manual` classification table -/

/-- C2: `run_test_manual` classifies outcomes exactly as the decision
table states: `False` gives FAIL with details "Test function returned
False"; `True` gives PASS; any other exception-free return gives PASS;
`AssertionError` gives FAIL with `error_message` prefixed
"Assertion failed"; any other exception gives FAIL with `error_message`
equal to the exception text. -/
theorem c2_classification_table :
    ∀ (tn cat : String) (d : ℚ) (ts : String),
      ((run_test_manual tn cat d ts .retFalse).1.status = "FAIL" ∧
        (run_test_manual tn cat d ts .retFalse).1.details = "Test function returned False") ∧
      (run_test_manual tn cat d ts .retTrue).1.status = "PASS" ∧
      (run_test_manual tn cat d ts .retOther).1.status = "PASS" ∧
      (∀ m, (run_test_manual tn cat d ts (.assertionError m)).1.status = "FAIL" ∧
        (run_test_manual tn cat d ts (.assertionError m)).1.error_message =
          "Assertion failed: " ++ m) ∧
      (∀ m, (run_test_manual tn cat d ts (.otherError m)).1.status = "FAIL" ∧
        (run_test_manual tn cat d ts (.otherError m)).1.error_message = m) := by
  intro tn cat d ts
  refine ⟨⟨rfl, rfl⟩, rfl, rfl, fun m => ⟨rfl, rfl⟩, fun m => ⟨rfl, rfl⟩⟩

/-! ## Claim C10: `get_category_summary` key presence -/

/-- C10: for a category with no recorded outcomes the summary is exactly
the five zero counters with both duration keys absent; for a category
with at least one outcome both duration keys are present. -/
theorem c10_category_summary_keys :
    ∀ (results : List TestResult) (category : String),
      (results.filter (fun r => r.category == category) = [] →
        get_category_summary results category = ⟨0, 0, 0, 0, 0, none, none⟩) ∧
      (results.filter (fun r => r.category == category) ≠ [] →
        (get_category_summary results category).avg_duration.isSome = true ∧
        (get_category_summary results category).total_duration.isSome = true) := by
  intro results category
  constructor
  · intro h
    simp [get_category_summary, h]
  · intro h
    rw [get_category_summary]
    simp only [List.isEmpty_iff]
    rw [if_neg h]
    exact ⟨rfl, rfl⟩

/-- Witness for C10: an empty run and a one-outcome run. -/
theorem c10_category_summary_keys_witness :
    get_category_summary [] "Engine Tests" = ⟨0, 0, 0, 0, 0, none, none⟩ ∧
    ((get_category_summary [⟨"t", "Engine Tests", "PASS", 1, "", "", ""⟩]
        "Engine Tests").avg_duration.isSome = true ∧
      (get_category_summary [⟨"t", "Engine Tests", "PASS", 1, "", "", ""⟩]
        "Engine Tests").total_duration.isSome = true) :=
  ⟨(c10_category_summary_keys [] "Engine Tests").1 rfl,
   (c10_category_summary_keys [⟨"t", "Engine Tests", "PASS", 1, "", "", ""⟩]
      "Engine Tests").2 (by simp)⟩

/-! ## Claim C8: success-rate tier recommendations -/

theorem slowTestsMsg_ne_tier (n : Nat) :
    slowTestsMsg n ≠ lowTierMsg ∧ slowTestsMsg n ≠ midTierMsg ∧
      slowTestsMsg n ≠ highTierMsg := by
  have h0 : ("⏱️ " : String).data = ['⏱', '\uFE0F', ' '] := rfl
  have hd : (slowTestsMsg n).data.head? = some '⏱' := by
    simp [slowTestsMsg, String.data_append, h0]
  refine ⟨?_, ?_, ?_⟩ <;> intro h <;> rw [h] at hd <;> revert hd <;> decide

theorem tier_not_mem_server (sv : Option Bool) (si : List (String × String)) :
    lowTierMsg ∉ server_recommendations sv si ∧
      midTierMsg ∉ server_recommendations sv si ∧
      highTierMsg ∉ server_recommendations sv si := by
  unfold server_recommendations
  split_ifs <;> refine ⟨?_, ?_, ?_⟩ <;> simp <;> decide

theorem tier_not_mem_slow (results : List TestResult) :
    lowTierMsg ∉ slow_recommendations results ∧
      midTierMsg ∉ slow_recommendations results ∧
      highTierMsg ∉ slow_recommendations results := by
  unfold slow_recommendations
  have h := slowTestsMsg_ne_tier
    ((results.filter (fun r => (30 : ℚ) < r.duration)).length)
  split_ifs <;> refine ⟨?_, ?_, ?_⟩ <;>
    simp only [List.mem_singleton, List.not_mem_nil, not_false_iff] <;>
    first
      | trivial
      | exact fun hc => (h.1 hc.symm)
      | exact fun hc => (h.2.1 hc.symm)
      | exact fun hc => (h.2.2 hc.symm)

theorem tier_not_mem_failure (results : List TestResult) :
    lowTierMsg ∉ failure_recommendations results ∧
      midTierMsg ∉ failure_recommendations results ∧
      highTierMsg ∉ failure_recommendations results := by
  unfold failure_recommendations
  split_ifs <;> refine ⟨?_, ?_, ?_⟩ <;> simp <;> decide

theorem mem_tier_iff (results : List TestResult) :
    (lowTierMsg ∈ tier_recommendations results ↔ success_rate results < 50) ∧
      (midTierMsg ∈ tier_recommendations results ↔
        50 ≤ success_rate results ∧ success_rate results < 80) ∧
      (highTierMsg ∈ tier_recommendations results ↔ 95 ≤ success_rate results) := by
  unfold tier_recommendations
  split_ifs with h1 h2 h3
  · refine ⟨by simp [h1], ?_, ?_⟩
    · simp only [List.mem_singleton]
      constructor
      · intro h; exact absurd h (by decide)
      · rintro ⟨h50, _⟩; linarith
    · simp only [List.mem_singleton]
      constructor
      · intro h; exact absurd h (by decide)
      · intro h95; linarith
  · refine ⟨?_, ?_, ?_⟩
    · simp only [List.mem_singleton]
      constructor
      · intro h; exact absurd h (by decide)
      · intro h; exact absurd h h1
    · simp only [List.mem_singleton]
      constructor
      · intro _; exact ⟨le_of_not_lt h1, h2⟩
      · intro _; trivial
    · simp only [List.mem_singleton]
      constructor
      · intro h; exact absurd h (by decide)
      · intro h95; linarith
  · refine ⟨?_, ?_, ?_⟩
    · simp only [List.mem_singleton]
      constructor
      · intro h; exact absurd h (by decide)
      · intro h; exact absurd h h1
    · simp only [List.mem_singleton]
      constructor
      · intro h; exact absurd h (by decide)
      · rintro ⟨_, h80⟩; exact absurd h80 h2
    · simp [h3]
  · refine ⟨?_, ?_, ?_⟩
    · simp only [List.not_mem_nil, false_iff]
      exact h1
    · simp only [List.not_mem_nil, false_iff]
      rintro ⟨_, h80⟩; exact h2 h80
    · simp only [List.not_mem_nil, false_iff]
      exact h3

/-- C8 (amended): the recommendations list contains the `<50%` tier
message iff the pass rate is below 50%, the `<80%` message iff it is in
[50%, 80%), and the `≥95%` message iff it is at least 95%; at most one
tier message is ever present - and for rates in [80%, 95%) none is. -/
theorem c8_tier_recommendations :
    ∀ (sv : Option Bool) (si : List (String × String)) (results : List TestResult),
      (lowTierMsg ∈ get_recommendations sv si results ↔
        success_rate results < 50) ∧
      (midTierMsg ∈ get_recommendations sv si results ↔
        50 ≤ success_rate results ∧ success_rate results < 80) ∧
      (highTierMsg ∈ get_recommendations sv si results ↔
        95 ≤ success_rate results) ∧
      ¬(lowTierMsg ∈ get_recommendations sv si results ∧
        midTierMsg ∈ get_recommendations sv si results) ∧
      ¬(lowTierMsg ∈ get_recommendations sv si results ∧
        highTierMsg ∈ get_recommendations sv si results) ∧
      ¬(midTierMsg ∈ get_recommendations sv si results ∧
        highTierMsg ∈ get_recommendations sv si results) := by
  intro sv si results
  have hs := tier_not_mem_server sv si
  have hsl := tier_not_mem_slow results
  have hf := tier_not_mem_failure results
  have ht := mem_tier_iff results
  have hlow : lowTierMsg ∈ get_recommendations sv si results ↔
      success_rate results < 50 := by
    rw [get_recommendations]
    simp only [List.mem_append]
    rw [← ht.1]
    constructor
    · rintro (((h | h) | h) | h)
      · exact absurd h hs.1
      · exact absurd h hsl.1
      · exact absurd h hf.1
      · exact h
    · intro h; exact Or.inr h
  have hmid : midTierMsg ∈ get_recommendations sv si results ↔
      50 ≤ success_rate results ∧ success_rate results < 80 := by
    rw [get_recommendations]
    simp only [List.mem_append]
    rw [← ht.2.1]
    constructor
    · rintro (((h | h) | h) | h)
      · exact absurd h hs.2.1
      · exact absurd h hsl.2.1
      · exact absurd h hf.2.1
      · exact h
    · intro h; exact Or.inr h
  have hhigh : highTierMsg ∈ get_recommendations sv si results ↔
      95 ≤ success_rate results := by
    rw [get_recommendations]
    simp only [List.mem_append]
    rw [← ht.2.2]
    constructor
    · rintro (((h | h) | h) | h)
      · exact absurd h hs.2.2
      · exact absurd h hsl.2.2
      · exact absurd h hf.2.2
      · exact h
    · intro h; exact Or.inr h
  refine ⟨hlow, hmid, hhigh, ?_, ?_, ?_⟩
  · rintro ⟨h1, h2⟩
    have r1 := hlow.mp h1
    have r2 := hmid.mp h2
    linarith [r2.1]
  · rintro ⟨h1, h2⟩
    have r1 := hlow.mp h1
    have r2 := hhigh.mp h2
    linarith
  · rintro ⟨h1, h2⟩
    have r1 := hmid.mp h1
    have r2 := hhigh.mp h2
    linarith [r1.2]

/-- C8 counterexample: a run at a 90% pass rate (nine PASS, one FAIL)
produces no recommendation at all - in particular none of the three tier
messages - refuting "for every run, exactly one of these tier
recommendations is emitted" (`main.py` 307-312 emits nothing for rates
in [80%, 95%)). -/
theorem c8_counterexample :
    success_rate resultsNinety = 90 ∧
    get_recommendations (some true) [("endpoint", "/health")] resultsNinety = [] := by
  have hrate : success_rate resultsNinety = 90 := by
    simp [success_rate, resultsNinety]
    norm_num
  refine ⟨hrate, ?_⟩
  have h1 : server_recommendations (some true) [("endpoint", "/health")] = [] := by
    norm_num [server_recommendations]
  have h2 : slow_recommendations resultsNinety = [] := by
    norm_num [slow_recommendations, resultsNinety]
  have h3 : failure_recommendations resultsNinety = [] := by
    norm_num [failure_recommendations, resultsNinety]
    decide
  have h4 : tier_recommendations resultsNinety = [] := by
    rw [tier_recommendations, hrate]
    norm_num
  rw [get_recommendations, h1, h2, h3, h4]
  rfl

/-- Witness for C8: the 30%-rate run carries the `<50%` tier message. -/
theorem c8_tier_recommendations_witness :
    lowTierMsg ∈ get_recommendations (some true) [("k", "v")] resultsThirty :=
  (c8_tier_recommendations (some true) [("k", "v")] resultsThirty).1.mpr
    (by simp [success_rate, resultsThirty]; norm_num)

/-! ## Claim C9: is the report a pure projection of the outcomes? -/

/-- C9 counterexample: the same (empty) outcome sequence and the same
server status, rendered at two different times, give different reports:
line 318 reads the wall clock, so the Total Duration line changes. -/
theorem c9_counterexample :
    print_detailed_summary 1 0 (some true) [] [] ≠
      print_detailed_summary 2 0 (some true) [] [] := by
  intro h
  rw [print_detailed_summary, print_detailed_summary] at h
  have h2 := List.append_cancel_left h
  injection h2 with h3 _
  rw [totalDurationLine, totalDurationLine, sub_zero, sub_zero] at h3
  revert h3
  decide

/-- C9 (amended): the report is a pure projection of the outcome sequence
and server status except for the single Total Duration line, which
reflects the wall-clock time of generation; all other lines - statistics,
category breakdown, failure detail, slowest tests, final result and
recommendations - are identical across regenerations from the same data. -/
theorem c9_report_pure_except_duration :
    ∀ (t1 t2 start : ℚ) (sv : Option Bool) (si : List (String × String))
      (results : List TestResult),
      ∃ pre post,
        print_detailed_summary t1 start sv si results =
          pre ++ totalDurationLine (t1 - start) :: post ∧
        print_detailed_summary t2 start sv si results =
          pre ++ totalDurationLine (t2 - start) :: post :=
  fun _ _ _ sv si results =>
    ⟨detailed_summary_pre sv si results, detailed_summary_post sv si results,
      rfl, rfl⟩

/-! ## Claim C3: is one raising index isolated from the others? -/

theorem gatherResults_error (l : List (Except String RetrievalRow))
    (h : ∃ c ∈ l, ∃ e, c = .error e) : ∃ e, gatherResults l = .error e := by
  induction l with
  | nil => simp at h
  | cons c rest ih =>
    match c with
    | .error e => exact ⟨e, rfl⟩
    | .ok r =>
      obtain ⟨c, hc, e, he⟩ := h
      rcases List.mem_cons.mp hc with rfl | hc
      · exact absurd he (by simp)
      · obtain ⟨e2, h2⟩ := ih ⟨c, hc, e, he⟩
        exact ⟨e2, by simp [gatherResults, h2, Except.map]⟩

theorem gatherResults_ok (l : List (Except String RetrievalRow))
    (rows : List RetrievalRow) (h : gatherResults l = .ok rows) :
    ∀ c ∈ l, ∃ r, c = .ok r ∧ r ∈ rows := by
  induction l generalizing rows with
  | nil => simp
  | cons c rest ih =>
    match c with
    | .error e => simp [gatherResults] at h
    | .ok r =>
      rw [gatherResults] at h
      cases hr : gatherResults rest with
      | error e => rw [hr] at h; simp [Except.map] at h
      | ok rs =>
        rw [hr] at h
        simp only [Except.map, Except.ok.injEq] at h
        subst h
        intro c hc
        rcases List.mem_cons.mp hc with rfl | hc
        · exact ⟨r, rfl, List.mem_cons_self r rs⟩
        · obtain ⟨r2, hr2, hmem⟩ := ih rs hr c hc
          exact ⟨r2, hr2, List.mem_cons_of_mem r hmem⟩

/-- C3 counterexample: a two-element batch where index 1 succeeds (its
call returns a row) and index 2 gets a 500 status and raises. The whole
batch aggregation is aborted: the function returns `False` with no
per-element rows, so the non-raising index 1 reports nothing -
contradicting the claim that every other index still reports its own
outcome. -/
theorem c3_counterexample :
    single_request "a" 1 ⟨200, ["d1"], 1⟩ = .ok ⟨1, 1, 1, "a", ["d1"]⟩ ∧
    concurrent_retrieve_documents ["a", "b"]
      [⟨200, ["d1"], 1⟩, ⟨500, [], 1⟩] = (false, none) := by
  constructor
  · rfl
  · rfl

theorem gatherResults_all_ok (l : List (Except String RetrievalRow))
    (h : ∀ c ∈ l, ∃ r, c = .ok r) : ∃ rows, gatherResults l = .ok rows := by
  induction l with
  | nil => exact ⟨[], rfl⟩
  | cons c rest ih =>
    obtain ⟨r, hr⟩ := h c (List.mem_cons_self _ _)
    subst hr
    obtain ⟨rows, hrows⟩ := ih (fun c2 hc2 => h c2 (List.mem_cons_of_mem _ hc2))
    exact ⟨r :: rows, by simp [gatherResults, hrows, Except.map]⟩

/-- C3 (amended): if any index of the batch raises, `asyncio.gather`
propagates the exception, the outer `except` returns `False`, and no
per-element outcome is reported for any index, raising or not; only when
every index completes without raising does each index report its own row
in the aggregated results. -/
theorem c3_fanout_abort :
    ∀ (queries : List String) (replies : List VectorSearchReply),
      ((∃ c ∈ batch_calls queries replies, ∃ e, c = .error e) →
        concurrent_retrieve_documents queries replies = (false, none)) ∧
      ((∀ c ∈ batch_calls queries replies, ∃ r, c = .ok r) →
        ∃ rows, (concurrent_retrieve_documents queries replies).2 = some rows ∧
          ∀ c ∈ batch_calls queries replies, ∀ r, c = .ok r → r ∈ rows) := by
  intro queries replies
  constructor
  · intro h
    obtain ⟨e, he⟩ := gatherResults_error _ h
    rw [concurrent_retrieve_documents, he]
  · intro h
    obtain ⟨rows, hrows⟩ := gatherResults_all_ok _ h
    refine ⟨sort_by_request_id rows, ?_, ?_⟩
    · rw [concurrent_retrieve_documents, hrows]
    · intro c hc r hr
      obtain ⟨r2, hr2, hmem⟩ := gatherResults_ok _ rows hrows c hc
      rw [hr] at hr2
      cases hr2
      rw [sort_by_request_id]
      exact (List.mem_insertionSort (fun a b => a.request_id ≤ b.request_id)).mpr hmem

/-- Witness for C3: the amended behavior at the concrete two-element
batch of the counterexample, and at an all-ok batch. -/
theorem c3_fanout_abort_witness :
    concurrent_retrieve_documents ["a", "b"]
      [⟨200, ["d1"], 1⟩, ⟨500, [], 1⟩] = (false, none) ∧
    ∃ rows, (concurrent_retrieve_documents ["a"] [⟨200, ["d1"], 1⟩]).2 =
        some rows ∧
      ∀ c ∈ batch_calls ["a"] [⟨200, ["d1"], 1⟩], ∀ r, c = .ok r → r ∈ rows := by
  have hbc2 : batch_calls ["a", "b"] [⟨500, [], 1⟩, ⟨500, [], 1⟩] =
      batch_calls ["a", "b"] [⟨500, [], 1⟩, ⟨500, [], 1⟩] := rfl
  refine ⟨(c3_fanout_abort ["a", "b"] [⟨200, ["d1"], 1⟩, ⟨500, [], 1⟩]).1 ?_,
    (c3_fanout_abort ["a"] [⟨200, ["d1"], 1⟩]).2 ?_⟩
  · refine ⟨.error ("Failed to retrieve documents for query: " ++ "b"), ?_, _, rfl⟩
    rw [show batch_calls ["a", "b"] [⟨200, ["d1"], 1⟩, ⟨500, [], 1⟩] =
        [.ok ⟨1, 1, 1, "a", ["d1"]⟩,
         .error ("Failed to retrieve documents for query: " ++ "b")] from rfl]
    exact List.mem_cons_of_mem _ (List.mem_singleton.mpr rfl)
  · intro c hc
    rw [show batch_calls ["a"] [⟨200, ["d1"], 1⟩] =
        [.ok ⟨1, 1, 1, "a", ["d1"]⟩] from rfl] at hc
    rw [List.mem_singleton.mp hc]
    exact ⟨_, rfl⟩

/-! ## Claim C6: results are re-ordered by the original request index -/

/-- C6: whatever order the concurrent calls complete in - modelled as an
arbitrary permutation `raw` of the per-index rows, whose request ids are
exactly `1..n` (`single_request(query, i+1)` numbers them from 1) - the
`results.sort(key=lambda x: x[0])` step returns them sorted by the
original request index: the id sequence is exactly `[1..n]`. -/
theorem c6_sorted_by_request_id :
    ∀ (n : Nat) (base raw : List RetrievalRow),
      base.map (fun r => r.request_id) = List.range' 1 n →
      raw.Perm base →
      (sort_by_request_id raw).map (fun r => r.request_id) = List.range' 1 n := by
  intro n base raw hbase hperm
  have hsorted : (sort_by_request_id raw).Sorted
      (fun a b => a.request_id ≤ b.request_id) :=
    List.sorted_insertionSort _ raw
  have hmap_sorted :
      ((sort_by_request_id raw).map (fun r => r.request_id)).Sorted (· ≤ ·) :=
    List.Pairwise.map _ (fun _ _ h => h) hsorted
  have hmap_perm :
      ((sort_by_request_id raw).map (fun r => r.request_id)).Perm
        (List.range' 1 n) := by
    have h1 : (sort_by_request_id raw).Perm raw := List.perm_insertionSort _ raw
    have h2 := (h1.trans hperm).map (fun r => r.request_id)
    rwa [hbase] at h2
  have hr_sorted : (List.range' 1 n).Sorted (· ≤ ·) :=
    (List.pairwise_lt_range' 1 n).imp le_of_lt
  exact List.eq_of_perm_of_sorted hmap_perm hmap_sorted hr_sorted

/-- Witness for C6: three rows arriving in completion order 3, 1, 2 come
out with ids `[1, 2, 3]`. -/
theorem c6_sorted_by_request_id_witness :
    (sort_by_request_id
        [⟨3, 1, 0, "q3", []⟩, ⟨1, 1, 0, "q1", []⟩, ⟨2, 1, 0, "q2", []⟩]).map
      (fun r => r.request_id) = List.range' 1 3 :=
  c6_sorted_by_request_id 3
    [⟨1, 1, 0, "q1", []⟩, ⟨2, 1, 0, "q2", []⟩, ⟨3, 1, 0, "q3", []⟩]
    [⟨3, 1, 0, "q3", []⟩, ⟨1, 1, 0, "q1", []⟩, ⟨2, 1, 0, "q2", []⟩]
    (by decide) (by decide)
